import Mathlib

/-
Verification of the `gsl::not_null` wrapper from `include/gsl.h`.

The wrapper stores exactly one field `ptr_ : T`.  Runtime behaviour is
embedded as total Lean functions; operations that can raise the
precondition error return `Except GslError`.  Construction-site overload
resolution (which decides the compile-time claims about deleted
constructors) is embedded as a small executable model of the class's
constructor overload set, transcribed from the class body.
-/

/-- The single error kind of the component: a violated precondition
(the spec calls it PreconditionViolation). -/
inductive GslError : Type where
  | PreconditionViolation : GslError
deriving DecidableEq

/-- Modelled from the spec: the precondition-check primitive `Expects` comes
from `gsl_assert.h`, which is not among the sources.  Its contract (spec
section 6): evaluate the condition; when it is false, raise a fatal,
synchronous PreconditionViolation that unwinds out of the wrapper; when it is
true, return with no observable effect. -/
def Expects (cond : Bool) : Except GslError Unit :=
  if cond then Except.ok () else Except.error GslError.PreconditionViolation

/-- A pointer-like handle type: a type holding a distinguished null value
(the instantiation precondition `std::is_assignable<T&, std::nullptr_t>`,
gsl.h line 101). -/
class Nullable (T : Type) where
  nullv : T

instance : Nullable (Option α) := ⟨none⟩

/-- `gsl::not_null<T>` (gsl.h lines 98-168): exactly one data member
`ptr_ : T`, no other storage. -/
structure not_null (T : Type) where
  ptr_ : T
deriving DecidableEq

/-- `ensure_invariant` (gsl.h line 156): `Expects(ptr_ != nullptr);`. -/
def not_null.ensure_invariant [DecidableEq T] [Nullable T]
    (p : not_null T) : Except GslError Unit :=
  Expects (decide (p.ptr_ ≠ Nullable.nullv))

/-- The constructor `not_null(T t) : ptr_(t) { ensure_invariant(); }`
(gsl.h line 114): initialise `ptr_` with `t`, then run `ensure_invariant`;
when the check raises, construction does not complete and no object is
produced, which the `Except` return models. -/
def not_null.fromT [DecidableEq T] [Nullable T]
    (t : T) : Except GslError (not_null T) :=
  match (not_null.mk t).ensure_invariant with
  | Except.ok _ => Except.ok (not_null.mk t)
  | Except.error e => Except.error e

/-- The variadic forwarding constructor
`template<class... U> not_null(U... args) : ptr_(std::forward<U>(args)...)`
(gsl.h lines 110-113), instantiated at a single argument of a type `U`
convertible to `T`; `conv` is the implicit conversion applied when the
member initialiser converts the forwarded argument to `T`.  The body only
declares a local of type `check_args<U...>` (line 112), a trait struct whose
instantiation neither performs a runtime null check nor fails to compile
(it merely derives from `std::conditional`/`std::is_constructible`, gsl.h
lines 103-107), so this construction path performs no validation at all:
the function is total and never raises. -/
def not_null.fromFwd (conv : U → T) (u : U) : not_null T :=
  not_null.mk (conv u)

/-- `operator=(const T& t) { ptr_ = t; ensure_invariant(); return *this; }`
(gsl.h line 115): the assigned value is stored into `ptr_` FIRST and
`ensure_invariant` runs on the already-updated object.  The result pairs the
updated object with the outcome of the check. -/
def not_null.assignT [DecidableEq T] [Nullable T]
    (p : not_null T) (t : T) : not_null T × Except GslError Unit :=
  ({ p with ptr_ := t }, ({ p with ptr_ := t } : not_null T).ensure_invariant)

/-- `T get() const { return ptr_; }` (gsl.h lines 139-144); the `__assume`
is an MSVC optimizer hint with no observable behaviour. -/
def not_null.get (p : not_null T) : T := p.ptr_

/-- `operator T() const { return get(); }` (gsl.h line 146). -/
def not_null.opT (p : not_null T) : T := p.get

/-- `T operator->() const { return get(); }` (gsl.h line 147). -/
def not_null.opArrow (p : not_null T) : T := p.get

/-- The converting constructor
`template<U, Dummy> not_null(const not_null<U>& other) { *this = other; }`
(gsl.h lines 120-124): its body delegates to the converting assignment
below, so the new object holds `conv other.get()` with no null check. -/
def not_null.fromWrapper (conv : U → T) (other : not_null U) : not_null T :=
  not_null.mk (conv other.get)

/-- The converting assignment
`template<U, Dummy> operator=(const not_null<U>& other)` with body
`ptr_ = other.get(); return *this;` (gsl.h lines 126-131): copies the
source's handle through the implicit conversion, with no null check and no
possibility of failure. -/
def not_null.assignW (p : not_null T) (conv : U → T)
    (other : not_null U) : not_null T :=
  { p with ptr_ := conv other.get }

/-- `bool operator==(const T& rhs) const { return ptr_ == rhs; }`
(gsl.h line 149). -/
def not_null.opEq [DecidableEq T] (p : not_null T) (rhs : T) : Bool :=
  decide (p.ptr_ = rhs)

/-- `bool operator!=(const T& rhs) const { return !(*this == rhs); }`
(gsl.h line 150). -/
def not_null.opNe [DecidableEq T] (p : not_null T) (rhs : T) : Bool :=
  !(p.opEq rhs)

/-- What the C++ expression `a == b` on two wrappers of the same `T`
elaborates to: the class only declares `operator==(const T&)`, so the right
operand goes through `operator T()` first. -/
def eqWrapper [DecidableEq T] (a b : not_null T) : Bool :=
  a.opEq b.opT

/-- `std::hash<gsl::not_null<T>>::operator()` (gsl.h lines 174-181):
`return hash<T>{}(value);`, where the wrapper `value` is converted through
`operator T()`; `hashT` stands for `std::hash<T>`. -/
def hashNotNull (hashT : T → Nat) (v : not_null T) : Nat :=
  hashT v.opT

/-- A concrete base-class pointer type for witnesses; `none` is the null
pointer. -/
abbrev BasePtr : Type := Option Nat

/-- A concrete derived-class pointer type implicitly convertible to
`BasePtr`. -/
abbrev DerivedPtr : Type := Option (Nat × Nat)

/-- The implicit derived-to-base pointer conversion; a null derived pointer
converts to the null base pointer. -/
def derivedToBase : DerivedPtr → BasePtr :=
  Option.map Prod.fst

/-- The shape of the argument list at a `not_null<T>` construction site, for
the compile-time claims. -/
inductive ArgShape : Type where
  | noArgs
  | nullptrLit
  | zeroLit
  | lvalueT
  | convertibleU
deriving DecidableEq

/-- The parameter of one constructor of `not_null<T>` (gsl.h lines
110-137). -/
inductive ParamKind : Type where
  | packU        -- template variadic pack `U... args` (line 110)
  | valueT       -- `not_null(T t)` (line 114)
  | constRefSame -- the defaulted copy constructor (line 117)
  | constRefConv -- converting ctor from `const not_null<U>&` (lines 120-121)
  | nullptrParam -- `not_null(std::nullptr_t) = delete` (line 134)
  | intParam     -- `not_null(int) = delete` (line 135)
deriving DecidableEq

/-- One constructor overload of `not_null<T>`. -/
structure CtorOverload where
  param : ParamKind
  isTemplateCtor : Bool
  isDeleted : Bool
deriving DecidableEq

/-- The constructor overload set of `not_null<T>`, transcribed in source
order from gsl.h lines 110-137. -/
def ctorOverloads : List CtorOverload :=
  [ ⟨ParamKind.packU, true, false⟩,
    ⟨ParamKind.valueT, false, false⟩,
    ⟨ParamKind.constRefSame, false, false⟩,
    ⟨ParamKind.constRefConv, true, false⟩,
    ⟨ParamKind.nullptrParam, false, true⟩,
    ⟨ParamKind.intParam, false, true⟩ ]

/-- C++ implicit-conversion rank of an argument shape against a parameter:
`some 0` exact match, `some 1` implicit conversion, `none` not viable.
A template pack parameter matches any argument list exactly; the literal `0`
is a null pointer constant, hence convertible to `std::nullptr_t` and to the
pointer type `T`; a raw handle value never converts to a wrapper reference
(that would take the very user conversion being resolved). -/
def rank : ParamKind → ArgShape → Option Nat
  | ParamKind.packU, _ => some 0
  | ParamKind.valueT, ArgShape.lvalueT => some 0
  | ParamKind.valueT, ArgShape.convertibleU => some 1
  | ParamKind.valueT, ArgShape.nullptrLit => some 1
  | ParamKind.valueT, ArgShape.zeroLit => some 1
  | ParamKind.valueT, ArgShape.noArgs => none
  | ParamKind.constRefSame, _ => none
  | ParamKind.constRefConv, _ => none
  | ParamKind.nullptrParam, ArgShape.nullptrLit => some 0
  | ParamKind.nullptrParam, ArgShape.zeroLit => some 1
  | ParamKind.nullptrParam, _ => none
  | ParamKind.intParam, ArgShape.zeroLit => some 0
  | ParamKind.intParam, _ => none

/-- Overload `a` beats overload `b` at argument shape `s`: a strictly lower
conversion rank wins, and at equal rank a non-template constructor beats a
template one (C++ overload resolution). -/
def beats (s : ArgShape) (a b : CtorOverload) : Bool :=
  match rank a.param s, rank b.param s with
  | some ra, some rb =>
      decide (ra < rb) || (decide (ra = rb) && (!a.isTemplateCtor && b.isTemplateCtor))
  | some _, none => true
  | none, _ => false

/-- The best viable constructor for an argument shape, if any is viable. -/
def pickBest (s : ArgShape) : Option CtorOverload :=
  ctorOverloads.foldl
    (fun acc o =>
      match acc with
      | none => if (rank o.param s).isSome then some o else none
      | some b => if beats s o b then some o else some b)
    none

/-- Outcome of compiling `gsl::not_null<T> x(args...)` for a given argument
shape. -/
inductive CompileOutcome : Type where
  | rejected
  | accepted (chosen : CtorOverload)
deriving DecidableEq

/-- Overload resolution at a `not_null<T>` construction site: choose the
best viable constructor; choosing a deleted constructor is ill-formed
(gsl.h lines 134-135), and choosing the variadic constructor with an empty
argument pack is ill-formed because its body names `check_args<U...>`
(line 112) and `check_args` requires at least one template argument
(lines 103-107). -/
def resolveCtor (s : ArgShape) : CompileOutcome :=
  match pickBest s with
  | none => CompileOutcome.rejected
  | some o =>
    if o.isDeleted then CompileOutcome.rejected
    else if o.param = ParamKind.packU ∧ s = ArgShape.noArgs then CompileOutcome.rejected
    else CompileOutcome.accepted o

/-- Names of the member operators of `not_null<T>`: the arithmetic family
(gsl.h lines 160-167) and the value-returning accessors (lines 139-147). -/
inductive MemberOpName : Type where
  | preInc
  | preDec
  | postInc
  | postDec
  | addOp
  | addAssign
  | subOp
  | subAssign
  | getFn
  | convToT
  | arrowOp
deriving DecidableEq

/-- Which member operations the class deletes, transcribed from gsl.h lines
160-167; the accessors of lines 139-147 are available. -/
def opIsDeleted : MemberOpName → Bool
  | MemberOpName.preInc => true
  | MemberOpName.preDec => true
  | MemberOpName.postInc => true
  | MemberOpName.postDec => true
  | MemberOpName.addOp => true
  | MemberOpName.addAssign => true
  | MemberOpName.subOp => true
  | MemberOpName.subAssign => true
  | MemberOpName.getFn => false
  | MemberOpName.convToT => false
  | MemberOpName.arrowOp => false

/-- The eight pointer-arithmetic member operators declared at gsl.h lines
160-167. -/
def arithmeticMemberOps : List MemberOpName :=
  [ MemberOpName.preInc, MemberOpName.preDec,
    MemberOpName.postInc, MemberOpName.postDec,
    MemberOpName.addOp, MemberOpName.addAssign,
    MemberOpName.subOp, MemberOpName.subAssign ]

/-- Claim C1: evaluation at the failing input.  A null handle passed as a
value of `T` does raise PreconditionViolation (first conjunct).  But a null
handle passed as a forwarded convertible pointer selects the variadic
forwarding constructor (second conjunct: an exact match beats the
conversion needed by `not_null(T)`), and that constructor completes with no
error, storing the null handle (third conjunct) — contrary to the claim and
to the header's own comment that construction from `U*` must fail on
`nullptr`. -/
theorem c1_forwarded_null_is_not_rejected :
    not_null.fromT (none : BasePtr) = Except.error GslError.PreconditionViolation ∧
    resolveCtor ArgShape.convertibleU =
      CompileOutcome.accepted ⟨ParamKind.packU, true, false⟩ ∧
    not_null.fromFwd derivedToBase (none : DerivedPtr) = not_null.mk (none : BasePtr) :=
  ⟨rfl, rfl, rfl⟩

/-- Claim C2: evaluation at the failing input.  Construction through the
forwarding constructor from a null convertible pointer completes, and on the
completed object `get()` observes the null value (and `ensure_invariant`
would report the violation), refuting the invariant as claimed. -/
theorem c2_completed_wrapper_can_hold_null :
    (not_null.fromFwd derivedToBase (none : DerivedPtr)).get = (Nullable.nullv : BasePtr) ∧
    (not_null.fromFwd derivedToBase (none : DerivedPtr)).ensure_invariant =
      Except.error GslError.PreconditionViolation :=
  ⟨rfl, rfl⟩

/-- Claim C3, counterexample: assigning the null handle to a wrapper holding
`some 5` raises PreconditionViolation, yet the wrapper's stored value
afterwards is the assigned null handle, not the value it held before the
assignment — `operator=` stores first and checks second. -/
theorem c3_failed_assignment_changes_state :
    ((not_null.mk (some 5 : BasePtr)).assignT none).2 =
      Except.error GslError.PreconditionViolation ∧
    ((not_null.mk (some 5 : BasePtr)).assignT none).1.ptr_ ≠ some 5 :=
  ⟨rfl, by decide⟩

/-- Claim C3 as amended: the only failure mode is PreconditionViolation,
raised synchronously by the assignment exactly when the assigned handle is
null, and construction from a handle value either yields the wrapper or that
error with no object produced; but `operator=` stores the assigned handle
before checking, so after a failed assignment the stored value is the
assigned null handle rather than the previous value. -/
theorem c3_failure_semantics {T : Type} [DecidableEq T] [Nullable T]
    (p : not_null T) (t : T) :
    (p.assignT t).1.ptr_ = t ∧
    ((p.assignT t).2 = Except.error GslError.PreconditionViolation ↔ t = Nullable.nullv) ∧
    (not_null.fromT t = Except.ok (not_null.mk t) ∨
      not_null.fromT t = Except.error GslError.PreconditionViolation) := by
  refine ⟨rfl, ?_, ?_⟩
  · by_cases h : t = Nullable.nullv
    · simp [not_null.assignT, not_null.ensure_invariant, Expects, h]
    · simp [not_null.assignT, not_null.ensure_invariant, Expects, h]
  · by_cases h : t = Nullable.nullv
    · right
      simp [not_null.fromT, not_null.ensure_invariant, Expects, h]
    · left
      simp [not_null.fromT, not_null.ensure_invariant, Expects, h]

/-- Witness for C3's amended theorem at a concrete wrapper and handle. -/
theorem c3_failure_semantics_w :
    ((not_null.mk (some 7 : BasePtr)).assignT (some 3)).1.ptr_ = some 3 ∧
    (((not_null.mk (some 7 : BasePtr)).assignT (some 3)).2 =
        Except.error GslError.PreconditionViolation ↔ (some 3 : BasePtr) = Nullable.nullv) ∧
    (not_null.fromT (some 3 : BasePtr) = Except.ok (not_null.mk (some 3)) ∨
      not_null.fromT (some 3 : BasePtr) = Except.error GslError.PreconditionViolation) :=
  c3_failure_semantics (not_null.mk (some 7)) (some 3)

/-- Claim C4: for every non-null handle value `h`, construction from `h`
through `not_null(T)` succeeds, producing the wrapper that stores `h`, and
`get()` on it returns exactly `h`. -/
theorem c4_nonnull_construction_succeeds {T : Type} [DecidableEq T] [Nullable T]
    (h : T) (hnn : h ≠ Nullable.nullv) :
    not_null.fromT h = Except.ok (not_null.mk h) ∧ (not_null.mk h).get = h := by
  refine ⟨?_, rfl⟩
  simp [not_null.fromT, not_null.ensure_invariant, Expects, hnn]

/-- Witness for C4 at the concrete non-null handle `some 42`. -/
theorem c4_nonnull_construction_succeeds_w :
    not_null.fromT (some 42 : BasePtr) = Except.ok (not_null.mk (some 42)) ∧
    (not_null.mk (some 42 : BasePtr)).get = some 42 :=
  c4_nonnull_construction_succeeds (some 42) (by decide)

/-- Claim C5: wrapper equality `a == b` (which elaborates through
`operator==(const T&)` and `operator T()`) holds exactly when
`a.get() = b.get()`; equal wrappers hash identically; and the hash of a
wrapper is the hash of its underlying handle. -/
theorem c5_equality_hash_consistency {T : Type} [DecidableEq T]
    (hashT : T → Nat) (a b : not_null T) :
    (eqWrapper a b = true ↔ a.get = b.get) ∧
    (eqWrapper a b = true → hashNotNull hashT a = hashNotNull hashT b) ∧
    hashNotNull hashT a = hashT a.get := by
  refine ⟨?_, ?_, rfl⟩
  · simp [eqWrapper, not_null.opEq, not_null.opT, not_null.get]
  · intro hab
    have hg : a.ptr_ = b.ptr_ := by
      simpa [eqWrapper, not_null.opEq, not_null.opT, not_null.get] using hab
    simp [hashNotNull, not_null.opT, not_null.get, hg]

/-- Witness for C5 at two concrete equal wrappers and a concrete hash. -/
theorem c5_equality_hash_consistency_w :
    (eqWrapper (not_null.mk (some 3 : BasePtr)) (not_null.mk (some 3)) = true ↔
      (not_null.mk (some 3 : BasePtr)).get = (not_null.mk (some 3 : BasePtr)).get) ∧
    (eqWrapper (not_null.mk (some 3 : BasePtr)) (not_null.mk (some 3)) = true →
      hashNotNull (fun o => o.getD 0) (not_null.mk (some 3 : BasePtr)) =
        hashNotNull (fun o => o.getD 0) (not_null.mk (some 3 : BasePtr))) ∧
    hashNotNull (fun o => o.getD 0) (not_null.mk (some 3 : BasePtr)) =
      (fun o : BasePtr => o.getD 0) (not_null.mk (some 3 : BasePtr)).get :=
  c5_equality_hash_consistency (fun o => o.getD 0)
    (not_null.mk (some 3)) (not_null.mk (some 3))

/-- Claim C6: converting construction and converting assignment from a
wrapper over a convertible handle type yield a wrapper whose `get()` is the
source wrapper's `get()` after the implicit conversion. -/
theorem c6_conversion_preserves_value {T U : Type} (conv : U → T)
    (other : not_null U) (p : not_null T) :
    (not_null.fromWrapper conv other).get = conv other.get ∧
    (p.assignW conv other).get = conv other.get :=
  ⟨rfl, rfl⟩

/-- Claim C7: `get()` returns the stored handle and is a pure total
function, and the conversion operator and `operator->` return exactly the
same value as `get()`; all three are total, so none can fail. -/
theorem c7_accessors_agree_and_are_total {T : Type} (p : not_null T) :
    p.get = p.ptr_ ∧ p.opT = p.get ∧ p.opArrow = p.get :=
  ⟨rfl, rfl, rfl⟩

/-- Claim C8: construction from the null literal and from the literal zero
resolves to a deleted constructor, and default construction resolves to the
variadic constructor whose body is ill-formed on an empty pack — all three
paths are compile-time rejections; by contrast construction from a value of
`T` resolves to the checking constructor `not_null(T)`. -/
theorem c8_compile_time_rejection :
    resolveCtor ArgShape.nullptrLit = CompileOutcome.rejected ∧
    resolveCtor ArgShape.zeroLit = CompileOutcome.rejected ∧
    resolveCtor ArgShape.noArgs = CompileOutcome.rejected ∧
    resolveCtor ArgShape.lvalueT =
      CompileOutcome.accepted ⟨ParamKind.valueT, false, false⟩ :=
  ⟨rfl, rfl, rfl, rfl⟩

/-- Claim C9: all eight pointer-arithmetic member operators of the class are
deleted, and the available value-returning operations (`get`, the conversion
operator and `operator->`) all return the stored handle unchanged, so no
available operation produces a new address from an existing wrapper. -/
theorem c9_no_arithmetic_available :
    arithmeticMemberOps.all opIsDeleted = true ∧
    ∀ (T : Type) (p : not_null T),
      p.get = p.ptr_ ∧ p.opT = p.ptr_ ∧ p.opArrow = p.ptr_ :=
  ⟨rfl, fun _ _ => ⟨rfl, rfl, rfl⟩⟩

/-- Claim C10: converting construction and converting assignment copy
`other.get()` through the implicit conversion with no null check: they are
total functions (hence never raise PreconditionViolation and are
deterministic), their result is exactly the wrapper storing the converted
handle, and even a source wrapper holding the null value is copied verbatim
with no error. -/
theorem c10_conversion_trusts_source {T U : Type} (conv : U → T)
    (other : not_null U) (p : not_null T) :
    not_null.fromWrapper conv other = not_null.mk (conv other.get) ∧
    p.assignW conv other = not_null.mk (conv other.get) ∧
    not_null.fromWrapper (fun x : BasePtr => x) (not_null.mk (none : BasePtr)) =
      not_null.mk (none : BasePtr) :=
  ⟨rfl, rfl, rfl⟩
